import Mathlib

/-!
Formal model of the dojo member portal (src/dojo_streamlit_portal/app.py and
src/dojo_streamlit_portal/utils/hash_pins.py), as a shallow embedding:
pandas row filters become List.filter over row structures, dates become
integers counted in days from a Monday epoch (so Python weekday() is emod 7),
Python floats become rationals, and the strftime formats used by the row
builders are interpreted by a small directive interpreter.  Column presence
(pandas "col in df.columns") is a Boolean flag on the table model, and the
external hashlib.sha256 hex digest is an abstract function parameter, since
its implementation lives outside this repository.
-/

namespace DojoPortal

/-- Python str.strip: drop leading and trailing whitespace. -/
def strip (s : String) : String :=
  String.mk (((s.data.dropWhile Char.isWhitespace).reverse.dropWhile Char.isWhitespace).reverse)

/-- Python str.lower (ASCII case folding, as used for emails and statuses). -/
def lower (s : String) : String :=
  String.mk (s.data.map Char.toLower)

/-- The ".strip().lower()" normalization applied throughout app.py. -/
def norm (s : String) : String := lower (strip s)

/-- One row of the Members sheet, as the fields app.py reads.
`PIN` and `PIN_Hash` hold the cell text; whether the column exists at all
is recorded on the table. -/
structure MemberRow where
  Email : String
  PIN : String
  PIN_Hash : String
  MemberName : String
deriving DecidableEq

/-- The Members sheet: per-table column-presence flags plus the rows,
modelling pandas "PIN in df.columns" checks. -/
structure MembersTable where
  hasPIN : Bool
  hasPINHash : Bool
  rows : List MemberRow
deriving DecidableEq

/-- app.py find_member (lines 38-54).  `hash` stands for the salted
SHA-256 hex digest pin_hash (hashlib is external to the repository).
Normalizes the email, takes the first row whose normalized Email matches,
then prefers the hashed-PIN comparison when the PIN_Hash column exists and
the cell is non-blank, falls back to stripped string equality on PIN, and
treats a table with neither column as open. -/
def find_member (hash : String → String) (t : MembersTable) (email pin : String) :
    Option MemberRow :=
  let e := norm email
  if e = "" then none
  else
    match t.rows.filter (fun r => decide (norm r.Email = e)) with
    | [] => none
    | r :: _ =>
      if t.hasPINHash ∧ strip r.PIN_Hash ≠ "" then
        (if hash pin = strip r.PIN_Hash then some r else none)
      else if t.hasPIN then
        (if strip pin = strip r.PIN then some r else none)
      else some r

/-- The login form's match computation (app.py lines 199-202):
rows whose normalized Email equals the normalized input and whose PIN cell,
as a string, equals the supplied PIN exactly (no stripping, no hashing).
Login succeeds exactly when this list is non-empty. -/
def login_matches (t : MembersTable) (email pin : String) : List MemberRow :=
  t.rows.filter (fun r => decide (norm r.Email = norm email ∧ r.PIN = pin))

/-- app.py pct (lines 251-256).  Python floats are modelled as rationals and
a failed float() parse as `none`. -/
def pct (a b : Option ℚ) : ℚ :=
  match a, b with
  | some a, some b => if b ≤ 0 then 0 else max 0 (min 100 (a / b * 100))
  | _, _ => 0

/-- Python date.weekday() with dates as day numbers from a Monday epoch:
0 = Monday, ..., 6 = Sunday. -/
def weekday (d : Int) : Int := d % 7

/-- app.py next_monday (lines 347-348): a Monday maps to itself, any other
date moves forward by 7 - weekday days. -/
def next_monday (d : Int) : Int :=
  if weekday d = 0 then d else d + (7 - weekday d)

/-- Modelled from the spec: the testable-properties section describes the
normalization target as "the Monday of its week", i.e. the Monday at or
before the date. -/
def spec_monday_of_week (d : Int) : Int := d - weekday d

/-- app.py conflict mask (lines 429-434): an existing leave range conflicts
with the new range when both its dates parse (`some`) and
existing_from <= new_end and existing_to >= new_start. -/
def conflict_mask (efrom eto : Option Int) (start_new end_new : Int) : Bool :=
  match efrom, eto with
  | some f, some t => decide (f ≤ end_new) && decide (start_new ≤ t)
  | _, _ => false

/-- Outcome of one click of "Submit leave request" (app.py lines 391-452).
Field errors are reported per field; when validation passes the handler
computes the overlap check and then, in the source, calls
append_leave_request only inside the `if overlap_found` branch, so the
no-overlap case falls through with no append and no message. -/
inductive LeaveOutcome where
  | errStart
  | errWeeks
  | errReason
  | errDescription
  | conflictShownAndAppended
  | noFeedback
deriving DecidableEq

/-- app.py leave-request submit handler (lines 391-452).  `start_sel` is the
date-input value (`none` models the falsy guard `not snapped_start`),
`existing` the member's already-filtered leave ranges from the Requests
sheet, each as (FromDate, ToDate) parse results. -/
def leave_submit (start_sel : Option Int) (weeks : Int) (reason description : String)
    (existing : List (Option Int × Option Int)) : LeaveOutcome :=
  if start_sel.isNone then LeaveOutcome.errStart
  else if weeks = 0 ∨ weeks < 1 then LeaveOutcome.errWeeks
  else if reason = "" then LeaveOutcome.errReason
  else if description = "" ∨ strip description = "" then LeaveOutcome.errDescription
  else
    let snapped := next_monday (start_sel.getD 0)
    let end_date := snapped + (7 * weeks - 1)
    if existing.any (fun p => conflict_mask p.1 p.2 snapped end_date) then
      LeaveOutcome.conflictShownAndAppended
    else
      LeaveOutcome.noFeedback

/-- Number of rows the handler appends to the Requests sheet in each
outcome: only the branch that shows the overlap conflict also reaches the
append_leave_request call (app.py line 445). -/
def rows_appended : LeaveOutcome → Nat
  | LeaveOutcome.conflictShownAndAppended => 1
  | _ => 0

/-- Calendar timestamp as the six fields the strftime formats in app.py use. -/
structure DateTime where
  year : Nat
  month : Nat
  day : Nat
  hour : Nat
  minute : Nat
  second : Nat
deriving DecidableEq

/-- Zero-pad to two digits, as Python %m, %d, %H, %M, %S. -/
def pad2 (n : Nat) : List Char :=
  if n < 10 then '0' :: (toString n).data else (toString n).data

/-- Zero-pad to four digits, as Python %Y. -/
def pad4 (n : Nat) : List Char :=
  List.replicate (4 - (toString n).length) '0' ++ (toString n).data

/-- Interpreter for the strftime directives appearing in app.py. -/
def strftimeAux (dt : DateTime) : List Char → List Char
  | [] => []
  | '%' :: c :: rest =>
    (if c = 'Y' then pad4 dt.year
     else if c = 'm' then pad2 dt.month
     else if c = 'd' then pad2 dt.day
     else if c = 'H' then pad2 dt.hour
     else if c = 'M' then pad2 dt.minute
     else if c = 'S' then pad2 dt.second
     else ['%', c]) ++ strftimeAux dt rest
  | c :: rest => c :: strftimeAux dt rest

/-- strftime over a format string. -/
def strftime (dt : DateTime) (fmt : String) : String :=
  String.mk (strftimeAux dt fmt.data)

/-- The format append_request passes to strftime (app.py line 58). -/
def generic_ts_format : String := "%Y-%m-%d %H:%M:%S"

/-- The format append_leave_request and append_contact_update pass to
strftime (app.py lines 75 and 125). -/
def dmy_ts_format : String := "%d-%m-%Y %H:%M:%S"

/-- app.py append_request (lines 56-70): the generic update-request row. -/
def append_request_row (dt : DateTime) (email mid req_type message : String) :
    List String :=
  [strftime dt generic_ts_format, email, mid, req_type, message, "New", "", ""]

/-- app.py append_leave_request base row (lines 74-98): the first eight
cells of a leave-request row. -/
def append_leave_request_base (dt : DateTime) (email mid : String) : List String :=
  [strftime dt dmy_ts_format, email, mid, "Leave request", "", "New", "", ""]

/-- app.py append_contact_update Timestamp cell (lines 124-133). -/
def append_contact_update_ts (dt : DateTime) : String :=
  strftime dt dmy_ts_format

/-- Modelled from the spec: "Timestamp format: day-month-year with time,
e.g. DD-MM-YYYY HH:MM:SS". -/
def spec_timestamp (dt : DateTime) : String :=
  String.mk (pad2 dt.day ++ '-' :: (pad2 dt.month ++ '-' :: (pad4 dt.year ++
    ' ' :: (pad2 dt.hour ++ ':' :: (pad2 dt.minute ++ ':' :: pad2 dt.second)))))

/-- Phone reformatting f-string (app.py line 489): digit groups 4-3-3. -/
def phone_format (digits : List Char) : String :=
  String.mk (digits.take 4 ++ ' ' :: ((digits.drop 4).take 3 ++ ' ' :: (digits.drop 7).take 3))

/-- The phone validation expression of app.py lines 486-493: keep only the
digits of the raw input (re.sub of non-digits), accept exactly a 10-digit
string starting with the digit 0, returning the 4-3-3 formatted number;
reject anything else with no row appended. -/
def phone_validate (raw : String) : Option String :=
  let digits := raw.data.filter Char.isDigit
  if digits.length = 10 ∧ digits.head? = some '0' then some (phone_format digits)
  else none

/-- What one visit to the "Update contact details" tab can do
(app.py lines 455-507). -/
inductive ContactOutcome where
  | noSubmitButton
  | nameError
deriving DecidableEq

/-- app.py contact-update tab control flow (lines 455-507): the
"Submit update" button (line 481) is nested inside the
`elif detail_type == "Email"` branch, so the Phone number and Address
branches render no submit control at all; the handler that does render
reads the unbound names `phone` / `new_email`, raising NameError, which the
`except` at line 506 turns into an error message with no append. -/
def contact_update_tab (detail_type : String) : ContactOutcome :=
  if detail_type = "Email" then ContactOutcome.nameError
  else ContactOutcome.noSubmitButton

/-- One row of the Requests sheet, as the fields the viewer filters read. -/
structure ReqRow where
  MemberEmail : String
  MemberID : String
  Status : String
deriving DecidableEq

/-- The "My requests" member filter (app.py lines 521-526): normalized
email equality, then, when the MemberID column exists, normalized
(stripped, lowercased string) MemberID equality. -/
def member_filter (rows : List ReqRow) (email mid : String) (hasMemberID : Bool) :
    List ReqRow :=
  let byEmail := rows.filter (fun r => decide (norm r.MemberEmail = norm email))
  if hasMemberID then byEmail.filter (fun r => decide (norm r.MemberID = norm mid))
  else byEmail

/-- The fixed pending-status set (app.py line 542). -/
def pending_values : List String := ["new", "pending", "in review", "in-progress", "submitted"]

/-- The pending toggle (app.py lines 582-583): keep rows whose stripped,
lowercased Status is in the pending set. -/
def pending_filter (rows : List ReqRow) : List ReqRow :=
  rows.filter (fun r => decide (norm r.Status ∈ pending_values))

/-- app.py pin_hash (lines 34-36): digest of salt ++ pin, with the salt read
from configuration; `sha256_hex` abstracts hashlib's hex digest of the
UTF-8 encoding, which is external library code. -/
def pin_hash (sha256_hex : String → String) (salt raw_pin : String) : String :=
  sha256_hex (salt ++ raw_pin)

/-- utils/hash_pins.py pin_hash (lines 5-6): digest of salt ++ pin, with the
salt as the second parameter. -/
def hash_pins_pin_hash (sha256_hex : String → String) (pin salt : String) : String :=
  sha256_hex (salt ++ pin)

end DojoPortal

namespace DojoPortal

/-- Helper: once the email normalizes to something non-empty and the filter
over the Members rows is known, find_member reduces to the PIN dispatch on
the first matching row. -/
theorem find_member_eq_of_first_match (hash : String → String) (t : MembersTable)
    (email pin : String) (r : MemberRow) (rest : List MemberRow)
    (hne : norm email ≠ "")
    (hmatch : t.rows.filter (fun x => decide (norm x.Email = norm email)) = r :: rest) :
    find_member hash t email pin =
      (if t.hasPINHash ∧ strip r.PIN_Hash ≠ "" then
        (if hash pin = strip r.PIN_Hash then some r else none)
      else if t.hasPIN then
        (if strip pin = strip r.PIN then some r else none)
      else some r) := by
  unfold find_member
  rw [if_neg hne, hmatch]

/-- C3: the overlap mask flags existing range [a1,a2] against new range
[b1,b2] exactly when a1 ≤ b2 and b1 ≤ a2, and an adjacent new range that
starts the day after a2 (Sunday end, Monday start) is never flagged. -/
theorem conflict_mask_iff (a1 a2 b1 b2 : Int) :
    (conflict_mask (some a1) (some a2) b1 b2 = true ↔ a1 ≤ b2 ∧ b1 ≤ a2)
    ∧ conflict_mask (some a1) (some a2) (a2 + 1) b2 = false := by
  constructor
  · simp [conflict_mask]
  · have h : ¬ (a2 + 1 ≤ a2) := by omega
    simp [conflict_mask, h]

/-- C4: pct returns 0 when the allowance is ≤ 0, returns taken/allowance*100
clamped to [0,100] otherwise, stays within [0,100], and yields 0 on
unparseable (none) inputs. -/
theorem pct_clamped (a b : ℚ) :
    (b ≤ 0 → pct (some a) (some b) = 0)
    ∧ (0 < b → pct (some a) (some b) = max 0 (min 100 (a / b * 100)))
    ∧ (0 ≤ pct (some a) (some b) ∧ pct (some a) (some b) ≤ 100)
    ∧ pct none (some b) = 0 ∧ pct (some a) none = 0 := by
  have hp : pct (some a) (some b) = if b ≤ 0 then 0 else max 0 (min 100 (a / b * 100)) := rfl
  refine ⟨?_, ?_, ?_, rfl, rfl⟩
  · intro h; rw [hp, if_pos h]
  · intro h; rw [hp, if_neg (not_le.mpr h)]
  · rw [hp]; split_ifs
    · exact ⟨le_rfl, by norm_num⟩
    · exact ⟨le_max_left _ _, max_le (by norm_num) (min_le_left _ _)⟩

/-- C4 witness: pct 12 10 = 100, pct (-5) 10 = 0, pct 3 0 = 0. -/
theorem pct_clamped_witness :
    pct (some 12) (some 10) = 100 ∧ pct (some (-5)) (some 10) = 0
    ∧ pct (some 3) (some 0) = 0 := by
  have h1 := (pct_clamped 12 10).2.1 (by norm_num)
  have h2 := (pct_clamped (-5) 10).2.1 (by norm_num)
  have h3 := (pct_clamped 3 0).1 (by norm_num)
  rw [h1, h2, h3]
  refine ⟨?_, ?_, rfl⟩ <;> norm_num [min_def, max_def]

/-- C5 counterexample: with day 0 a Monday, day 1 is a Tuesday; next_monday
sends it to day 7 (the following Monday), while "the Monday of its week"
is day 0, so the two descriptions in the claim disagree on the code. -/
theorem next_monday_ne_monday_of_week :
    weekday 1 ≠ 0 ∧ next_monday 1 = 7 ∧ spec_monday_of_week 1 = 0
    ∧ next_monday 1 ≠ spec_monday_of_week 1 := by decide

/-- C5 amended: next_monday fixes Mondays, and sends every non-Monday to the
strictly following Monday, the unique Monday among the next six days. -/
theorem next_monday_spec (d : Int) :
    (weekday d = 0 → next_monday d = d)
    ∧ (weekday d ≠ 0 →
        weekday (next_monday d) = 0 ∧ d < next_monday d ∧ next_monday d ≤ d + 6) := by
  unfold next_monday weekday
  constructor
  · intro h; rw [if_pos h]
  · intro h; rw [if_neg h]; omega

/-- C5 witness: next_monday fixes the Monday day 0, and sends the Thursday
day 3 to a strictly later Monday within six days. -/
theorem next_monday_spec_witness :
    next_monday 0 = 0
    ∧ (weekday (next_monday 3) = 0 ∧ (3 : Int) < next_monday 3 ∧ next_monday 3 ≤ 3 + 6) :=
  ⟨(next_monday_spec 0).1 (by decide), (next_monday_spec 3).2 (by decide)⟩

/-- C10: app.py pin_hash and utils/hash_pins.py pin_hash feed the identical
string salt ++ pin to the same external SHA-256 hex digest, so with the
same salt configured they agree on every pin. -/
theorem pin_hash_functions_agree (sha256_hex : String → String) (salt pin : String) :
    pin_hash sha256_hex salt pin = hash_pins_pin_hash sha256_hex pin salt := rfl

end DojoPortal

namespace DojoPortal

/-- C1 (code bug): each failed field check reports that field and appends
nothing, but a submission passing all field checks appends a row only in
the branch that also shows the overlap-conflict error; a valid submission
with no overlapping existing request appends no row at all. -/
theorem leave_submit_append_miswired :
    leave_submit (some 0) 1 ("Personal") ("family trip") [] = LeaveOutcome.noFeedback
    ∧ rows_appended (leave_submit (some 0) 1 ("Personal") ("family trip") []) = 0
    ∧ leave_submit (some 0) 1 ("Personal") ("family trip") [(some 0, some 6)]
        = LeaveOutcome.conflictShownAndAppended
    ∧ rows_appended (leave_submit (some 0) 1 ("Personal") ("family trip")
        [(some 0, some 6)]) = 1
    ∧ leave_submit (some 0) 1 ("") ("family trip") [] = LeaveOutcome.errReason
    ∧ rows_appended (leave_submit (some 0) 1 ("") ("family trip") []) = 0
    ∧ leave_submit (some 0) 0 ("Personal") ("family trip") [] = LeaveOutcome.errWeeks
    ∧ leave_submit (some 0) 1 ("Personal") ("   ") [] = LeaveOutcome.errDescription
    ∧ leave_submit none 1 ("Personal") ("family trip") [] = LeaveOutcome.errStart := by
  decide

/-- C6 counterexample: append_request formats its timestamp year-first, so
the generic update-request row carries 2024-01-31 12:00:00 where the spec's
day-first format would give 31-01-2024 12:00:00. -/
theorem generic_row_timestamp_not_dmy :
    (append_request_row ⟨2024, 1, 31, 12, 0, 0⟩ ("e") ("m") ("t") ("msg")).head?
      = some ("2024-01-31 12:00:00")
    ∧ spec_timestamp ⟨2024, 1, 31, 12, 0, 0⟩ = "31-01-2024 12:00:00"
    ∧ (append_request_row ⟨2024, 1, 31, 12, 0, 0⟩ ("e") ("m") ("t") ("msg")).head?
      ≠ some (spec_timestamp ⟨2024, 1, 31, 12, 0, 0⟩) := by
  decide

/-- C6 amended: leave-request and contact-update rows carry the spec's
day-first DD-MM-YYYY HH:MM:SS timestamp, while the generic append_request
row carries a year-first YYYY-MM-DD HH:MM:SS timestamp. -/
theorem row_timestamp_formats (dt : DateTime) (email mid req_type message : String) :
    (append_leave_request_base dt email mid).head? = some (spec_timestamp dt)
    ∧ append_contact_update_ts dt = spec_timestamp dt
    ∧ (append_request_row dt email mid req_type message).head?
      = some (String.mk (pad4 dt.year ++ '-' :: (pad2 dt.month ++ '-' :: (pad2 dt.day ++
          ' ' :: (pad2 dt.hour ++ ':' :: (pad2 dt.minute ++ ':' :: pad2 dt.second)))))) := by
  refine ⟨?_, ?_, ?_⟩ <;>
    simp [append_leave_request_base, append_contact_update_ts, append_request_row,
      spec_timestamp, strftime, dmy_ts_format, generic_ts_format, strftimeAux]

/-- C7 (code bug): the contact-update tab renders a submit control only in
the Email branch, so the Phone number branch — whose validation expression
does accept exactly 10-digit 0-leading inputs with 4-3-3 formatting and
reject 9- and 11-digit inputs — can never run and never appends a row. -/
theorem phone_update_unreachable :
    contact_update_tab ("Phone number") = ContactOutcome.noSubmitButton
    ∧ contact_update_tab ("Address") = ContactOutcome.noSubmitButton
    ∧ contact_update_tab ("Email") = ContactOutcome.nameError
    ∧ phone_validate ("0400123456") = some ("0400 123 456")
    ∧ phone_validate ("0400 123 456") = some ("0400 123 456")
    ∧ phone_validate ("040012345") = none
    ∧ phone_validate ("04001234567") = none
    ∧ phone_validate ("1400123456") = none := by
  decide

end DojoPortal

namespace DojoPortal

/-- C2 counterexample: for a row carrying a non-blank PIN_Hash, find_member
rejects credentials whose digest differs from the stored hash, but the
login form accepts those same credentials because it only compares the
plain PIN column — the login path does not apply the hash rule. -/
theorem login_ignores_pin_hash :
    find_member (fun _ => "")
        ⟨true, true, [⟨"a@b.c", "1234", "storedhash", "Kid"⟩]⟩ ("a@b.c") ("1234") = none
    ∧ login_matches
        ⟨true, true, [⟨"a@b.c", "1234", "storedhash", "Kid"⟩]⟩ ("a@b.c") ("1234")
      = [⟨"a@b.c", "1234", "storedhash", "Kid"⟩] := by
  decide

/-- C2 amended: find_member does implement the claimed comparison — salted
digest against a non-blank stored hash, else stripped string equality on
the PIN column — but the login path authenticates by plain, unhashed
string equality of the PIN cell after email normalization, never
consulting PIN_Hash. -/
theorem find_member_vs_login (hash : String → String) (t : MembersTable)
    (email pin : String) (r : MemberRow) (rest : List MemberRow)
    (hne : norm email ≠ "")
    (hmatch : t.rows.filter (fun x => decide (norm x.Email = norm email)) = r :: rest) :
    (t.hasPINHash = true → strip r.PIN_Hash ≠ "" →
      find_member hash t email pin
        = if hash pin = strip r.PIN_Hash then some r else none)
    ∧ (t.hasPIN = true → (t.hasPINHash = true → strip r.PIN_Hash = "") →
      find_member hash t email pin
        = if strip pin = strip r.PIN then some r else none)
    ∧ (∀ s, s ∈ login_matches t email pin
        ↔ s ∈ t.rows ∧ norm s.Email = norm email ∧ s.PIN = pin) := by
  have key := find_member_eq_of_first_match hash t email pin r rest hne hmatch
  refine ⟨?_, ?_, ?_⟩
  · intro hh hnb
    rw [key, if_pos ⟨hh, hnb⟩]
  · intro hp hcase
    have hcond : ¬ (t.hasPINHash ∧ strip r.PIN_Hash ≠ "") := by
      rintro ⟨h1, h2⟩
      exact h2 (hcase h1)
    rw [key, if_neg hcond, if_pos hp]
  · intro s
    simp [login_matches, List.mem_filter]

/-- C2 witness: when the digest of the supplied PIN does equal the stored
hash, find_member returns the row. -/
theorem find_member_vs_login_witness :
    find_member (fun _ => "h")
        ⟨true, true, [⟨"a@b.c", "1234", "h", "Kid"⟩]⟩ ("a@b.c") ("1234")
      = some ⟨"a@b.c", "1234", "h", "Kid"⟩ := by
  have h := (find_member_vs_login (fun _ => "h")
      ⟨true, true, [⟨"a@b.c", "1234", "h", "Kid"⟩]⟩
      ("a@b.c") ("1234") ⟨"a@b.c", "1234", "h", "Kid"⟩ [] (by decide) (by decide)).1
      rfl (by decide)
  rw [h]
  decide

/-- C8 counterexample: the viewer compares MemberID on stripped, lowercased
strings, so with member id x1 the filter keeps a row whose MemberID cell is
X1 — not an exact member-id match as the claim states. -/
theorem member_filter_not_exact :
    member_filter [⟨"a@b.c", "X1", "New"⟩] ("a@b.c") ("x1") true
      = [⟨"a@b.c", "X1", "New"⟩]
    ∧ ("X1" : String) ≠ "x1" := by
  decide

/-- C8 amended: the member filter keeps exactly the rows whose normalized
(stripped, lowercased) email matches and — when the MemberID column exists
— whose normalized MemberID string matches (case-insensitively, not
exactly), and the pending filter keeps exactly the rows whose normalized
status lies in the fixed pending set. -/
theorem request_viewer_filters (rows : List ReqRow) (email mid : String) (r : ReqRow) :
    (r ∈ member_filter rows email mid true
      ↔ r ∈ rows ∧ norm r.MemberEmail = norm email ∧ norm r.MemberID = norm mid)
    ∧ (r ∈ member_filter rows email mid false
      ↔ r ∈ rows ∧ norm r.MemberEmail = norm email)
    ∧ (r ∈ pending_filter rows ↔ r ∈ rows ∧ norm r.Status ∈ pending_values) := by
  refine ⟨?_, ?_, ?_⟩ <;>
    simp [member_filter, pending_filter, List.mem_filter, and_assoc, and_comm]

/-- C9: when the first email-matching row has no usable PIN_Hash and the
table has no PIN column, find_member returns that row whatever PIN (and
whatever digest function) is supplied — the PIN cannot affect the result. -/
theorem find_member_open_when_no_pin (hash1 hash2 : String → String) (t : MembersTable)
    (email pin1 pin2 : String) (r : MemberRow) (rest : List MemberRow)
    (hne : norm email ≠ "")
    (hmatch : t.rows.filter (fun x => decide (norm x.Email = norm email)) = r :: rest)
    (hnohash : t.hasPINHash = false ∨ strip r.PIN_Hash = "")
    (hnopin : t.hasPIN = false) :
    find_member hash1 t email pin1 = some r
    ∧ find_member hash2 t email pin2 = some r := by
  have hcond : ¬ (t.hasPINHash ∧ strip r.PIN_Hash ≠ "") := by
    rintro ⟨h1, h2⟩
    rcases hnohash with h | h
    · rw [h] at h1; exact Bool.false_ne_true h1
    · exact h2 h
  have hpin : ¬ (t.hasPIN = true) := by simp [hnopin]
  constructor <;>
    rw [find_member_eq_of_first_match _ t email _ r rest hne hmatch,
      if_neg hcond, if_neg hpin]

/-- C9 witness: a table with no PIN and no PIN_Hash column authenticates
the same member row for two different PINs. -/
theorem find_member_open_witness :
    find_member (fun s => s)
        ⟨false, false, [⟨"a@b.c", "", "", "Kid"⟩]⟩ ("a@b.c") ("1")
      = some ⟨"a@b.c", "", "", "Kid"⟩
    ∧ find_member (fun s => s)
        ⟨false, false, [⟨"a@b.c", "", "", "Kid"⟩]⟩ ("a@b.c") ("2")
      = some ⟨"a@b.c", "", "", "Kid"⟩ :=
  find_member_open_when_no_pin (fun s => s) (fun s => s)
    ⟨false, false, [⟨"a@b.c", "", "", "Kid"⟩]⟩
    ("a@b.c") ("1") ("2") ⟨"a@b.c", "", "", "Kid"⟩ []
    (by decide) (by decide) (Or.inr rfl) rfl

end DojoPortal
